import Mathlib

/-!
Verification of the coding-agent script (src/agent.py) against its
natural-language specification.

The script is embedded shallowly:

* the filesystem is a partial map from path strings to file contents
  (`Fs`); `os.path.exists` holds exactly on paths in the map's domain;
* Python string operations are embedded as executable Lean functions
  (`py_lower` for `str.lower` on the ASCII fragment, `str_contains` for
  the `in` substring test, `join_sep` for `str.join`);
* the OpenAI chat-completion call is an oracle
  `api : List Message → String → Except String String`, where
  `Except.error e` models the call raising an exception whose `str` is
  `e`, and `Except.ok t` models a successful call returning text `t`;
* `run_agent_with_reflection` returns, besides its result (`Except`
  models the Python function raising), the ordered trace of completion
  calls it performed, so that claims about which requests were issued
  are statable;
* the interactive loop of `main` is modelled per turn (`main_turn`) and
  over a finite list of input lines (`main_loop`), with the pipeline as
  an oracle whose `Except.error` models an exception during the turn.
-/

/-- A chat message: role is one of the closed set used by the script
("system" or "user"), content is free text. -/
structure Message where
  role : String
  content : String
deriving DecidableEq, Repr

/-- Filesystem state: a partial map from paths to (UTF-8 decoded) text. -/
structure Fs where
  files : String → Option String

/-- Embedding of `str.lower` on one character (ASCII fragment). -/
def char_lower (c : Char) : Char :=
  if 'A' ≤ c ∧ c ≤ 'Z' then Char.ofNat (c.toNat + 32) else c

/-- Embedding of Python `str.lower` (ASCII fragment). -/
def py_lower (s : String) : String :=
  String.mk (s.data.map char_lower)

/-- Character-list substring test, used to embed Python's `in`. -/
def has_sublist (pat : List Char) : List Char → Bool
  | [] => pat.isEmpty
  | c :: rest => pat.isPrefixOf (c :: rest) || has_sublist pat rest

/-- Embedding of Python's `pat in s` substring test. -/
def str_contains (s pat : String) : Bool :=
  has_sublist pat.data s.data

/-- Embedding of Python's `sep.join(xs)`. -/
def join_sep (sep : String) : List String → String
  | [] => ""
  | [x] => x
  | x :: y :: rest => x ++ sep ++ join_sep sep (y :: rest)

/-- Embedding of `load_text_file` (agent.py lines 10-15): return the
file's content, or the empty string when the path does not exist. -/
def load_text_file (fs : Fs) (file_path : String) : String :=
  match fs.files file_path with
  | none => ""
  | some content => content

/-- The `layer_files` dictionary of `gather_memory` (agent.py lines 30-35). -/
def layer_files (layer : Nat) : Option String :=
  match layer with
  | 1 => some "layer_1_logic.md"
  | 2 => some "layer_2_concepts.md"
  | 3 => some "layer_3_important_details.md"
  | 4 => some "layer_4_arbitrary.md"
  | _ => none

/-- The `memory_content` list built by the loop of `gather_memory`
(agent.py lines 37-41): one block per requested layer that is a known
layer and whose file loads to non-empty content; a block is the f-string
`"=== Layer {layer} Knowledge ===\n{content}\n"`. -/
def gather_blocks (fs : Fs) : List Nat → List String
  | [] => []
  | layer :: rest =>
    match layer_files layer with
    | some fname =>
      let content := load_text_file fs ("memory/" ++ fname)
      if content = "" then gather_blocks fs rest
      else ("=== Layer " ++ toString layer ++ " Knowledge ===\n" ++ content ++ "\n")
             :: gather_blocks fs rest
    | none => gather_blocks fs rest

/-- Embedding of `gather_memory` (agent.py lines 17-43):
`"\n".join(memory_content)`. -/
def gather_memory (fs : Fs) (layers_needed : List Nat) : String :=
  join_sep "\n" (gather_blocks fs layers_needed)

/-- Blocks exactly as claim C1 words them: for each requested layer whose
file exists with non-empty content, the header line followed by that
file's content (and nothing more). -/
def spec_blocks (fs : Fs) : List Nat → List String
  | [] => []
  | layer :: rest =>
    match layer_files layer with
    | some fname =>
      match fs.files ("memory/" ++ fname) with
      | some content =>
        if content = "" then spec_blocks fs rest
        else ("=== Layer " ++ toString layer ++ " Knowledge ===\n" ++ content)
               :: spec_blocks fs rest
      | none => spec_blocks fs rest
    | none => spec_blocks fs rest

/-- The Memory Gatherer output as claim C1 words it: the blocks of
`spec_blocks` separated by blank lines and nothing else. -/
def spec_gather (fs : Fs) (layers_needed : List Nat) : String :=
  join_sep "\n\n" (spec_blocks fs layers_needed)

theorem str_append_assoc (a b c : String) : a ++ b ++ c = a ++ (b ++ c) := by
  apply String.ext
  simp [List.append_assoc]

theorem newline_pair (s : String) : "\n" ++ ("\n" ++ s) = "\n\n" ++ s := by
  rw [← str_append_assoc, (by decide : ("\n" ++ "\n" : String) = "\n\n")]

theorem gather_blocks_eq_spec (fs : Fs) (L : List Nat) :
    gather_blocks fs L = (spec_blocks fs L).map (fun b => b ++ "\n") := by
  induction L with
  | nil => rfl
  | cons layer rest ih =>
    unfold gather_blocks spec_blocks
    cases h : layer_files layer with
    | none => simpa using ih
    | some fname =>
      cases hf : fs.files ("memory/" ++ fname) with
      | none => simp [load_text_file, hf, ih]
      | some content =>
        by_cases hc : content = "" <;> simp [load_text_file, hf, hc, ih]

theorem join_sep_map_append (l : List String) :
    join_sep "\n" (l.map (fun b => b ++ "\n")) =
      if l = [] then "" else join_sep "\n\n" l ++ "\n" := by
  induction l with
  | nil => rfl
  | cons x xs ih =>
    cases xs with
    | nil => rfl
    | cons y ys =>
      have hne : (y :: ys : List String) ≠ [] := by simp
      rw [if_neg hne] at ih
      show (x ++ "\n") ++ "\n" ++ join_sep "\n" ((y :: ys).map (fun b => b ++ "\n")) =
        if (x :: y :: ys : List String) = [] then ""
        else (x ++ "\n\n" ++ join_sep "\n\n" (y :: ys)) ++ "\n"
      rw [if_neg (by simp : (x :: y :: ys : List String) ≠ []), ih]
      rw [str_append_assoc, str_append_assoc, str_append_assoc, str_append_assoc,
        newline_pair]

/-- Embedding of `get_completion` (agent.py lines 45-65). The whole
`try` block — client construction and the chat-completion request — is
the oracle `api`; `Except.error e` models it raising an exception with
message `e`, which the function converts to the string `"Error: " ++ e`
(the f-string `f"Error: {str(e)}"`). The function is total: it always
returns a string to its caller. -/
def get_completion (api : List Message → String → Except String String)
    (messages : List Message) (model : String) : String :=
  match api messages model with
  | Except.ok text => text
  | Except.error e => "Error: " ++ e

/-- The triple-quoted fallback reflection template of
`generate_reflection_prompt` (agent.py lines 80-91), byte for byte. -/
def fallback_reflection_template : String :=
  "\n        Analyze the solution provided across each layer:\n        1. Logic Layer: Was the high-level approach sound?\n        2. Concepts Layer: Were relevant patterns/principles applied?\n        3. Important Details Layer: Were crucial implementation details included?\n        4. Arbitrary Layer: Were edge cases considered appropriately?\n\n        Summarize:\n        1. Key strengths\n        2. Areas for improvement\n        3. Additional context needed (if any)\n        "

/-- Embedding of `generate_reflection_prompt` (agent.py lines 67-93). -/
def generate_reflection_prompt (fs : Fs) (solution : String) : String :=
  let loaded := load_text_file fs "prompts/reflection_prompt.md"
  let reflection_prompt := if loaded = "" then fallback_reflection_template else loaded
  reflection_prompt ++ "\n\nSolution to analyze:\n" ++ solution

/-- The trigger-keyword list of `run_agent_with_reflection`
(agent.py line 118). -/
def trigger_keywords : List String :=
  ["legacy", "old version", "deprecated", "edge case"]

/-- The layer-selection of `run_agent_with_reflection` (agent.py lines
116-119): start from `[1, 2, 3]`, append 4 when any trigger keyword
occurs in the lowercased query. -/
def initial_layers (user_query : String) : List Nat :=
  let layers_to_load : List Nat := [1, 2, 3]
  if trigger_keywords.any (fun kw => str_contains (py_lower user_query) kw) then
    layers_to_load ++ [4]
  else
    layers_to_load

/-- The initial message list of `run_agent_with_reflection`
(agent.py lines 124-128). -/
def compose_messages (system_prompt memory_snippets user_query : String) :
    List Message :=
  [⟨"system", system_prompt⟩,
   ⟨"system", "Relevant memory:\n" ++ memory_snippets⟩,
   ⟨"user", user_query⟩]

/-- The reflection message list of `run_agent_with_reflection`
(agent.py lines 134-137). -/
def reflection_messages_of (reflection_prompt : String) : List Message :=
  [⟨"system", "You are a code review assistant performing a reflection analysis."⟩,
   ⟨"user", reflection_prompt⟩]

/-- The exceptions `run_agent_with_reflection` can raise. -/
inductive AgentError where
  | valueError (msg : String)
  | fileNotFoundError (msg : String)
deriving DecidableEq, Repr

/-- One chat-completion request issued to the API. -/
structure CallRecord where
  messages : List Message
  model : String
deriving DecidableEq, Repr

/-- Embedding of Python's `a or b` on optional strings (`None` and `""`
are falsy), as in `api_key or os.getenv("OPENAI_API_KEY")`. -/
def py_or_str (a b : Option String) : Option String :=
  match a with
  | some s => if s = "" then b else some s
  | none => b

/-- Embedding of `run_agent_with_reflection` (agent.py lines 95-141).
`env` is the process environment (`os.getenv`), `api` the completion
oracle. Besides the result — `Except.error` models the function raising —
it returns the ordered list of completion requests issued, so that the
trace of API calls is observable. -/
def run_agent_with_reflection (fs : Fs) (env : String → Option String)
    (api : List Message → String → Except String String)
    (user_query : String) (api_key : Option String) :
    Except AgentError (String × String) × List CallRecord :=
  let api_key_to_use := py_or_str api_key (env "OPENAI_API_KEY")
  if api_key_to_use = none ∨ api_key_to_use = some "" then
    (Except.error (AgentError.valueError
      "OpenAI API key must be provided or set in OPENAI_API_KEY environment variable"), [])
  else
    let system_prompt := load_text_file fs "prompts/system_prompt.md"
    if system_prompt = "" then
      (Except.error (AgentError.fileNotFoundError "System prompt file not found"), [])
    else
      let layers_to_load := initial_layers user_query
      let memory_snippets := gather_memory fs layers_to_load
      let messages := compose_messages system_prompt memory_snippets user_query
      let initial_response := get_completion api messages "gpt-4"
      let reflection_prompt := generate_reflection_prompt fs initial_response
      let r_messages := reflection_messages_of reflection_prompt
      let reflection := get_completion api r_messages "gpt-4"
      (Except.ok (initial_response, reflection),
        [⟨messages, "gpt-4"⟩, ⟨r_messages, "gpt-4"⟩])

/-- The two states of the interactive loop of `main`. -/
inductive LoopState where
  | prompting
  | terminated
deriving DecidableEq, Repr

/-- The exit test of `main` (agent.py line 153):
`user_input.lower() in ['exit', 'quit']`. -/
def is_exit_command (s : String) : Bool :=
  py_lower s = "exit" || py_lower s = "quit"

/-- One turn of the interactive loop of `main` (agent.py lines 150-167),
with the pipeline as an oracle whose `Except.error e` models
`run_agent_with_reflection` raising an exception with message `e`
(caught by the `except Exception` handler, line 166). Returns the next
loop state, the list of queries passed to the pipeline this turn, and
the lines printed. -/
def main_turn (pipeline : String → Except String (String × String))
    (user_input : String) : LoopState × List String × List String :=
  if is_exit_command user_input then
    (LoopState.terminated, [], [])
  else
    match pipeline user_input with
    | Except.ok (initial_response, reflection) =>
      (LoopState.prompting, [user_input],
        ["\n=== Agent's Response ===", initial_response,
         "\n=== Reflection Analysis ===", reflection])
    | Except.error e =>
      (LoopState.prompting, [user_input], ["\nError: " ++ e])

/-- The interactive loop of `main` over a finite list of input lines:
turns run in sequence, accumulating pipeline calls and printed lines,
until an exit command terminates the session or input is exhausted. -/
def main_loop (pipeline : String → Except String (String × String)) :
    List String → LoopState × List String × List String
  | [] => (LoopState.prompting, [], [])
  | user_input :: rest =>
    match main_turn pipeline user_input with
    | (LoopState.terminated, calls, out) => (LoopState.terminated, calls, out)
    | (LoopState.prompting, calls, out) =>
      match main_loop pipeline rest with
      | (st, calls2, out2) => (st, calls ++ calls2, out ++ out2)

/-- Unfolding lemma for `run_agent_with_reflection`: the guard structure
and, in the success case, the two completion calls written out. -/
theorem run_agent_unfold (fs : Fs) (env : String → Option String)
    (api : List Message → String → Except String String)
    (q : String) (key : Option String) :
    run_agent_with_reflection fs env api q key =
      if py_or_str key (env "OPENAI_API_KEY") = none ∨
          py_or_str key (env "OPENAI_API_KEY") = some "" then
        (Except.error (AgentError.valueError
          "OpenAI API key must be provided or set in OPENAI_API_KEY environment variable"), [])
      else if load_text_file fs "prompts/system_prompt.md" = "" then
        (Except.error (AgentError.fileNotFoundError "System prompt file not found"), [])
      else
        (Except.ok
          (get_completion api
             (compose_messages (load_text_file fs "prompts/system_prompt.md")
               (gather_memory fs (initial_layers q)) q) "gpt-4",
           get_completion api
             (reflection_messages_of (generate_reflection_prompt fs
               (get_completion api
                 (compose_messages (load_text_file fs "prompts/system_prompt.md")
                   (gather_memory fs (initial_layers q)) q) "gpt-4"))) "gpt-4"),
         [⟨compose_messages (load_text_file fs "prompts/system_prompt.md")
             (gather_memory fs (initial_layers q)) q, "gpt-4"⟩,
          ⟨reflection_messages_of (generate_reflection_prompt fs
             (get_completion api
               (compose_messages (load_text_file fs "prompts/system_prompt.md")
                 (gather_memory fs (initial_layers q)) q) "gpt-4")), "gpt-4"⟩]) := rfl

/-- Filesystem for the C1 counterexample: exactly one memory file,
layer 1, with content "A". -/
def c1_fs : Fs :=
  ⟨fun p => if p = "memory/layer_1_logic.md" then some "A" else none⟩

/-- C1 counterexample: with only layer 1 present (content "A") and
request [1], `gather_memory` produces the block plus a trailing newline,
while the claim's "header line followed by the content, blocks separated
by blank lines and nothing else" has no trailing newline — so the two
differ. -/
theorem c1_gather_memory_counterexample :
    gather_memory c1_fs [1] = "=== Layer 1 Knowledge ===\nA\n" ∧
    spec_gather c1_fs [1] = "=== Layer 1 Knowledge ===\nA" ∧
    gather_memory c1_fs [1] ≠ spec_gather c1_fs [1] := by
  refine ⟨rfl, rfl, ?_⟩
  decide

/-- C1 (amended): for every filesystem state and request list,
`gather_memory` returns exactly the claim's blocks (header line followed
by the file's content, for the requested layers whose file exists with
non-empty content, in request order) separated by blank lines, followed
by a single trailing newline; and the empty string when no requested
layer produced content. -/
theorem c1_gather_memory_amended (fs : Fs) (L : List Nat) :
    gather_memory fs L =
      if spec_blocks fs L = [] then "" else spec_gather fs L ++ "\n" := by
  unfold gather_memory spec_gather
  rw [gather_blocks_eq_spec, join_sep_map_append]

/-- C2: the pipeline's layer selection requests exactly [1, 2, 3] when
the lowercased query contains none of the trigger substrings "legacy",
"old version", "deprecated", "edge case", and exactly [1, 2, 3, 4] when
it contains at least one of them. -/
theorem c2_initial_layers_spec (q : String) :
    ((∀ kw ∈ trigger_keywords, str_contains (py_lower q) kw = false) →
       initial_layers q = [1, 2, 3]) ∧
    ((∃ kw ∈ trigger_keywords, str_contains (py_lower q) kw = true) →
       initial_layers q = [1, 2, 3, 4]) := by
  constructor
  · intro h
    have hfalse : trigger_keywords.any (fun kw => str_contains (py_lower q) kw) = false := by
      rw [List.any_eq_false]
      intro kw hkw
      simp [h kw hkw]
    simp [initial_layers, hfalse]
  · intro h
    have htrue : trigger_keywords.any (fun kw => str_contains (py_lower q) kw) = true := by
      rw [List.any_eq_true]
      obtain ⟨kw, hkw, hc⟩ := h
      exact ⟨kw, hkw, hc⟩
    simp [initial_layers, htrue]

/-- C2 witness: a query with no trigger substring yields layers
[1, 2, 3]; one containing "LEGACY" (case-insensitively) yields
[1, 2, 3, 4]. -/
theorem c2_initial_layers_witness :
    initial_layers "How do I reverse a string?" = [1, 2, 3] ∧
    initial_layers "Use the LEGACY api" = [1, 2, 3, 4] :=
  ⟨(c2_initial_layers_spec "How do I reverse a string?").1 (by decide),
   (c2_initial_layers_spec "Use the LEGACY api").2 ⟨"legacy", by decide, by decide⟩⟩

/-- C3: whenever the pipeline reaches the completion stage (returns a
result), its first completion request is exactly the 3-message sequence
[system: system prompt, system: "Relevant memory:\n" + memory, user:
query], the memory block present even when the memory text is empty. -/
theorem c3_composed_request (fs : Fs) (env : String → Option String)
    (api : List Message → String → Except String String) (q : String)
    (key : Option String) (p : String × String)
    (h : (run_agent_with_reflection fs env api q key).1 = Except.ok p) :
    ((run_agent_with_reflection fs env api q key).2.map CallRecord.messages).head? =
      some [⟨"system", load_text_file fs "prompts/system_prompt.md"⟩,
            ⟨"system", "Relevant memory:\n" ++ gather_memory fs (initial_layers q)⟩,
            ⟨"user", q⟩] := by
  rw [run_agent_unfold] at h ⊢
  by_cases hk : py_or_str key (env "OPENAI_API_KEY") = none ∨
      py_or_str key (env "OPENAI_API_KEY") = some ""
  · rw [if_pos hk] at h
    exact absurd h (by simp)
  · rw [if_neg hk] at h ⊢
    by_cases hs : load_text_file fs "prompts/system_prompt.md" = ""
    · rw [if_pos hs] at h
      exact absurd h (by simp)
    · rw [if_neg hs]
      rfl

/-- Filesystem for the C3 witness: only the system prompt file exists,
so the gathered memory is empty. -/
def c3_fs : Fs :=
  ⟨fun p => if p = "prompts/system_prompt.md"
            then some "You are a helpful coding agent." else none⟩

/-- Environment for the C3 witness: the API key is set. -/
def c3_env : String → Option String :=
  fun v => if v = "OPENAI_API_KEY" then some "sk-test" else none

/-- Completion oracle for the C3 witness: always succeeds. -/
def c3_api : List Message → String → Except String String :=
  fun _ _ => Except.ok "Use slicing."

/-- C3 witness: on a concrete run with no memory files, the first
request is the 3-message sequence with an empty memory block. -/
theorem c3_composed_request_witness :
    ((run_agent_with_reflection c3_fs c3_env c3_api "How do I reverse a string?"
        none).2.map CallRecord.messages).head? =
      some [⟨"system", load_text_file c3_fs "prompts/system_prompt.md"⟩,
            ⟨"system", "Relevant memory:\n" ++
               gather_memory c3_fs (initial_layers "How do I reverse a string?")⟩,
            ⟨"user", "How do I reverse a string?"⟩] :=
  c3_composed_request c3_fs c3_env c3_api "How do I reverse a string?" none
    ("Use slicing.", "Use slicing.") rfl

/-- C4: when the underlying completion call fails with message e,
`get_completion` returns the string "Error: " followed by e — a string,
unconditionally, never a propagated exception (the return type is
`String`). -/
theorem c4_get_completion_error (api : List Message → String → Except String String)
    (messages : List Message) (model e : String)
    (h : api messages model = Except.error e) :
    get_completion api messages model = "Error: " ++ e := by
  unfold get_completion
  rw [h]

/-- Completion oracle for the C4 witness: always raises. -/
def c4_api : List Message → String → Except String String :=
  fun _ _ => Except.error "Connection error."

/-- C4 witness: a failing call is converted to an "Error: " string. -/
theorem c4_get_completion_error_witness :
    get_completion c4_api [] "gpt-4" = "Error: Connection error." :=
  c4_get_completion_error c4_api [] "gpt-4" "Connection error." rfl

/-- C5: with the API key absent from both the parameter and the
environment, or the system prompt file missing, the pipeline fails with
a configuration error and its completion-call trace is empty — the
completion client is never invoked. -/
theorem c5_config_error_before_call (fs : Fs) (env : String → Option String)
    (api : List Message → String → Except String String) (q : String)
    (key : Option String)
    (h : (key = none ∧ env "OPENAI_API_KEY" = none) ∨
         fs.files "prompts/system_prompt.md" = none) :
    ∃ err, run_agent_with_reflection fs env api q key = (Except.error err, []) := by
  rw [run_agent_unfold]
  rcases h with ⟨hk, he⟩ | hf
  · have hcond : py_or_str key (env "OPENAI_API_KEY") = none ∨
        py_or_str key (env "OPENAI_API_KEY") = some "" := by
      subst hk
      left
      simp [py_or_str, he]
    rw [if_pos hcond]
    exact ⟨_, rfl⟩
  · by_cases hk2 : py_or_str key (env "OPENAI_API_KEY") = none ∨
        py_or_str key (env "OPENAI_API_KEY") = some ""
    · rw [if_pos hk2]
      exact ⟨_, rfl⟩
    · have hsp : load_text_file fs "prompts/system_prompt.md" = "" := by
        unfold load_text_file
        rw [hf]
      rw [if_neg hk2, if_pos hsp]
      exact ⟨_, rfl⟩

/-- Empty filesystem for the C5 witness. -/
def c5_fs : Fs := ⟨fun _ => none⟩

/-- Empty environment for the C5 witness. -/
def c5_env : String → Option String := fun _ => none

/-- Completion oracle for the C5 witness (would succeed if ever called). -/
def c5_api : List Message → String → Except String String :=
  fun _ _ => Except.ok "unreachable"

/-- C5 witness: no key anywhere and no files — the pipeline errors with
an empty completion-call trace. -/
theorem c5_config_error_witness :
    ∃ err, run_agent_with_reflection c5_fs c5_env c5_api "hello" none =
      (Except.error err, []) :=
  c5_config_error_before_call c5_fs c5_env c5_api "hello" none (Or.inl ⟨rfl, rfl⟩)

/-- C6: with `prompts/reflection_prompt.md` absent, the reflection
prompt is the built-in four-point fallback template followed by
"Solution to analyze:" and the verbatim solution; the reflection request
of the pipeline is exactly the 2-message sequence [system: review
assistant, user: reflection prompt]; and the reflection prompt depends
only on the reflection template file, not on any memory layer. -/
theorem c6_reflection_fallback (fs : Fs) (s : String)
    (habs : fs.files "prompts/reflection_prompt.md" = none) :
    generate_reflection_prompt fs s =
      fallback_reflection_template ++ "\n\nSolution to analyze:\n" ++ s ∧
    (∀ (env : String → Option String)
       (api : List Message → String → Except String String)
       (q : String) (key : Option String) (p : String × String)
       (trace : List CallRecord),
       run_agent_with_reflection fs env api q key = (Except.ok p, trace) →
       ∃ first, trace = [first,
         ⟨[⟨"system", "You are a code review assistant performing a reflection analysis."⟩,
           ⟨"user", generate_reflection_prompt fs p.1⟩], "gpt-4"⟩]) ∧
    (∀ fs2 : Fs, fs2.files "prompts/reflection_prompt.md" =
        fs.files "prompts/reflection_prompt.md" →
       generate_reflection_prompt fs2 s = generate_reflection_prompt fs s) := by
  have hload : load_text_file fs "prompts/reflection_prompt.md" = "" := by
    unfold load_text_file
    rw [habs]
  refine ⟨?_, ?_, ?_⟩
  · simp [generate_reflection_prompt, hload]
  · intro env api q key p trace hrun
    rw [run_agent_unfold] at hrun
    by_cases hk : py_or_str key (env "OPENAI_API_KEY") = none ∨
        py_or_str key (env "OPENAI_API_KEY") = some ""
    · rw [if_pos hk] at hrun
      exact absurd hrun (by simp)
    · rw [if_neg hk] at hrun
      by_cases hs : load_text_file fs "prompts/system_prompt.md" = ""
      · rw [if_pos hs] at hrun
        exact absurd hrun (by simp)
      · rw [if_neg hs] at hrun
        simp only [Prod.mk.injEq, Except.ok.injEq] at hrun
        obtain ⟨h1, h2⟩ := hrun
        subst h1
        subst h2
        exact ⟨_, rfl⟩
  · intro fs2 h2
    unfold generate_reflection_prompt load_text_file
    rw [h2]

/-- Empty filesystem for the C6 witness. -/
def c6_fs : Fs := ⟨fun _ => none⟩

/-- C6 witness: with no reflection template file, the generated prompt
is the fallback template, the separator line, and the solution. -/
theorem c6_reflection_fallback_witness :
    generate_reflection_prompt c6_fs "def f(): pass" =
      fallback_reflection_template ++ "\n\nSolution to analyze:\n" ++ "def f(): pass" :=
  (c6_reflection_fallback c6_fs "def f(): pass" rfl).1

/-- C7: an input line lowercasing to "exit" or "quit" terminates the
loop without invoking the pipeline; the empty input line stays in
Prompting and invokes the pipeline exactly once, with "" as the query;
a turn whose pipeline call raises is caught: the error is printed and
the loop stays in Prompting. -/
theorem c7_interactive_loop (pipeline : String → Except String (String × String))
    (s e : String) (rest : List String) :
    (is_exit_command s = true →
       main_loop pipeline (s :: rest) = (LoopState.terminated, [], [])) ∧
    ((main_turn pipeline "").1 = LoopState.prompting ∧
       (main_turn pipeline "").2.1 = [""]) ∧
    (is_exit_command s = false → pipeline s = Except.error e →
       main_turn pipeline s = (LoopState.prompting, [s], ["\nError: " ++ e])) := by
  have hne : is_exit_command "" = false := by decide
  refine ⟨?_, ?_, ?_⟩
  · intro h
    simp [main_loop, main_turn, h]
  · cases hp : pipeline "" with
    | ok val =>
      obtain ⟨a, b⟩ := val
      simp [main_turn, hne, hp]
    | error err =>
      simp [main_turn, hne, hp]
  · intro h1 h2
    simp [main_turn, h1, h2]

/-- Pipeline oracle for the C7 witness: raises on the query "bad",
succeeds otherwise. -/
def c7_pipe : String → Except String (String × String) :=
  fun q => if q = "bad" then Except.error "boom" else Except.ok (q, "r")

/-- C7 witness: "EXIT" terminates with no pipeline call; "" stays in
Prompting with one pipeline call; a raising turn prints the error and
stays in Prompting. -/
theorem c7_interactive_loop_witness :
    main_loop c7_pipe ["EXIT"] = (LoopState.terminated, [], []) ∧
    ((main_turn c7_pipe "").1 = LoopState.prompting ∧
       (main_turn c7_pipe "").2.1 = [""]) ∧
    main_turn c7_pipe "bad" = (LoopState.prompting, ["bad"], ["\nError: " ++ "boom"]) :=
  ⟨(c7_interactive_loop c7_pipe "EXIT" "x" []).1 (by decide),
   (c7_interactive_loop c7_pipe "x" "x" []).2.1,
   (c7_interactive_loop c7_pipe "bad" "boom" []).2.2 (by decide) rfl⟩

/-- C8: the Text Loader returns the file's content when the path
exists, and the empty string — not an error — when it does not. -/
theorem c8_load_text_file (fs : Fs) (p : String) :
    (∀ content, fs.files p = some content → load_text_file fs p = content) ∧
    (fs.files p = none → load_text_file fs p = "") := by
  constructor
  · intro content h
    unfold load_text_file
    rw [h]
  · intro h
    unfold load_text_file
    rw [h]

/-- Filesystem for the C8 witness: one file "notes.txt". -/
def c8_fs : Fs :=
  ⟨fun p => if p = "notes.txt" then some "hello" else none⟩

/-- C8 witness: an existing file loads to its content, a missing path
loads to the empty string. -/
theorem c8_load_text_file_witness :
    load_text_file c8_fs "notes.txt" = "hello" ∧
    load_text_file c8_fs "absent.txt" = "" :=
  ⟨(c8_load_text_file c8_fs "notes.txt").1 "hello" (by decide),
   (c8_load_text_file c8_fs "absent.txt").2 (by decide)⟩

/-- C9: two runs identical except for the value of a non-empty api_key
parameter produce identical results and identical completion-call
traces: the key's value is used only in the presence check and is never
passed to the completion client. -/
theorem c9_api_key_value_irrelevant (fs : Fs) (env : String → Option String)
    (api : List Message → String → Except String String) (q : String)
    (k1 k2 : String) (h1 : k1 ≠ "") (h2 : k2 ≠ "") :
    run_agent_with_reflection fs env api q (some k1) =
      run_agent_with_reflection fs env api q (some k2) := by
  rw [run_agent_unfold, run_agent_unfold]
  have e1 : py_or_str (some k1) (env "OPENAI_API_KEY") = some k1 := by
    simp [py_or_str, h1]
  have e2 : py_or_str (some k2) (env "OPENAI_API_KEY") = some k2 := by
    simp [py_or_str, h2]
  have n1 : ¬(some k1 = none ∨ (some k1 : Option String) = some "") := by
    simp [h1]
  have n2 : ¬(some k2 = none ∨ (some k2 : Option String) = some "") := by
    simp [h2]
  rw [e1, e2, if_neg n1, if_neg n2]

/-- Filesystem for the C9 witness: only the system prompt file. -/
def c9_fs : Fs :=
  ⟨fun p => if p = "prompts/system_prompt.md" then some "SP" else none⟩

/-- Empty environment for the C9 witness. -/
def c9_env : String → Option String := fun _ => none

/-- Completion oracle for the C9 witness. -/
def c9_api : List Message → String → Except String String :=
  fun _ _ => Except.ok "answer"

/-- C9 witness: two distinct non-empty key values give identical runs. -/
theorem c9_api_key_value_irrelevant_witness :
    run_agent_with_reflection c9_fs c9_env c9_api "q" (some "key-one") =
      run_agent_with_reflection c9_fs c9_env c9_api "q" (some "key-two") :=
  c9_api_key_value_irrelevant c9_fs c9_env c9_api "q" "key-one" "key-two"
    (by decide) (by decide)

/-- C10: when the initial completion fails (oracle raises with message
m), the pipeline does not short-circuit: the first component of the
result is the string "Error: " ++ m, the reflection prompt embeds that
error string verbatim after "Solution to analyze:", and a second
completion call is still performed on the 2-message reflection
request. -/
theorem c10_error_response_still_reflected (fs : Fs) (env : String → Option String)
    (api : List Message → String → Except String String) (q : String)
    (key : Option String) (m : String)
    (hkey : ¬(py_or_str key (env "OPENAI_API_KEY") = none ∨
        py_or_str key (env "OPENAI_API_KEY") = some ""))
    (hsp : ¬load_text_file fs "prompts/system_prompt.md" = "")
    (hfail : api (compose_messages (load_text_file fs "prompts/system_prompt.md")
        (gather_memory fs (initial_layers q)) q) "gpt-4" = Except.error m) :
    run_agent_with_reflection fs env api q key =
      (Except.ok ("Error: " ++ m,
         get_completion api
           (reflection_messages_of (generate_reflection_prompt fs ("Error: " ++ m)))
           "gpt-4"),
       [⟨compose_messages (load_text_file fs "prompts/system_prompt.md")
           (gather_memory fs (initial_layers q)) q, "gpt-4"⟩,
        ⟨reflection_messages_of (generate_reflection_prompt fs ("Error: " ++ m)),
           "gpt-4"⟩]) ∧
    generate_reflection_prompt fs ("Error: " ++ m) =
      (if load_text_file fs "prompts/reflection_prompt.md" = ""
        then fallback_reflection_template
        else load_text_file fs "prompts/reflection_prompt.md") ++
        "\n\nSolution to analyze:\n" ++ ("Error: " ++ m) := by
  have hgc : get_completion api
      (compose_messages (load_text_file fs "prompts/system_prompt.md")
        (gather_memory fs (initial_layers q)) q) "gpt-4" = "Error: " ++ m := by
    unfold get_completion
    rw [hfail]
  constructor
  · rw [run_agent_unfold, if_neg hkey, if_neg hsp, hgc]
  · rfl

/-- Filesystem for the C10 witness: only the system prompt file. -/
def c10_fs : Fs :=
  ⟨fun p => if p = "prompts/system_prompt.md" then some "SP" else none⟩

/-- Environment for the C10 witness: the API key is set. -/
def c10_env : String → Option String :=
  fun v => if v = "OPENAI_API_KEY" then some "sk" else none

/-- Completion oracle for the C10 witness: every call raises. -/
def c10_api : List Message → String → Except String String :=
  fun _ _ => Except.error "boom"

/-- C10 witness: with a failing completion oracle, the run returns the
"Error: " string as the initial response and still performs the
reflection call on it. -/
theorem c10_error_response_witness :
    run_agent_with_reflection c10_fs c10_env c10_api "q" none =
      (Except.ok ("Error: " ++ "boom",
         get_completion c10_api
           (reflection_messages_of
             (generate_reflection_prompt c10_fs ("Error: " ++ "boom"))) "gpt-4"),
       [⟨compose_messages (load_text_file c10_fs "prompts/system_prompt.md")
           (gather_memory c10_fs (initial_layers "q")) "q", "gpt-4"⟩,
        ⟨reflection_messages_of
           (generate_reflection_prompt c10_fs ("Error: " ++ "boom")), "gpt-4"⟩]) :=
  (c10_error_response_still_reflected c10_fs c10_env c10_api "q" none "boom"
    (by decide) (by decide) rfl).1
